import Mathlib

/-!
Shallow embedding of the memalign-mcp core (Python) in Lean 4, together with
theorems settling the frozen claims about it.

Modelling conventions:
* Python strings are `List Char` (`PyStr`); string literals are written
  `"...".data`.
* Python JSON values (the result of `json.loads`) are the inductive `PyVal`;
  `json.loads` itself is an external collaborator and is passed in as an
  abstract function `loads : PyStr → Except PyStr PyVal` (error = the
  `json.JSONDecodeError` message).
* Python exceptions are the inductive `PyErr`, one constructor per raise
  site of interest; `PyErr.isValueError` records which of them are instances
  of Python `ValueError` (used by `except ValueError` handlers).
* The Anthropic LLM transport is an abstract function
  `llmText : (model system user : PyStr) → Except PyErr PyStr`.
* The ChromaDB vector index is an abstract nearest-neighbour oracle; the
  stored collections themselves are explicit lists of records.
* `datetime` timestamps are abstract integers; `isoformat`/`fromisoformat`
  round-trip as the identity.
* Floating point similarity scores are modelled as rationals (`ℚ`); the
  claims settled here are order-theoretic, not bit-level.
* Python `int()` coercion is only modelled on values that are already
  integers (`PyVal.vint`); no claim depends on `int` applied to strings.
-/

/-! ## Python string primitives -/

/-- Python strings, modelled as lists of characters. -/
abbrev PyStr := List Char

/-- Whitespace test used by `str.strip()` (ASCII fragment, which is all the
code ever strips). -/
def pyIsWs (c : Char) : Bool := c = ' ' || c = '\t' || c = '\n' || c = '\r'

/-- Python `str.strip()`: drop whitespace from both ends. -/
def pyStrip (s : PyStr) : PyStr :=
  ((s.dropWhile pyIsWs).reverse.dropWhile pyIsWs).reverse

/-- Python `str.split(sep)` for a one-character separator. Always returns at
least one (possibly empty) segment. -/
def splitChar (sep : Char) : PyStr → List PyStr
  | [] => [[]]
  | c :: rest =>
    match splitChar sep rest with
    | [] => [[c]]
    | h :: t => if c = sep then [] :: h :: t else (c :: h) :: t

/-- Python `str.split("\n")`. -/
def splitNl : PyStr → List PyStr := splitChar '\n'

/-- Python `"\n".join(lines)`. -/
def joinNl : List PyStr → PyStr
  | [] => []
  | [l] => l
  | l :: rest => l ++ '\n' :: joinNl rest

/-- Python `str.lower()` (ASCII case mapping, which is all the code compares). -/
def pyLower (s : PyStr) : PyStr := s.map Char.toLower

/-- Python `str(n)` for a Nat. -/
def natToStr (n : Nat) : PyStr := Nat.toDigits 10 n

/-- Python `str(i)` for an int. -/
def intToStr (i : Int) : PyStr :=
  if i < 0 then '-' :: natToStr (-i).toNat else natToStr i.toNat

/-- Substring test (Python `sub in whole`), recursive on the whole string. -/
def strContains : PyStr → PyStr → Bool
  | whole, sub =>
    List.isPrefixOf sub whole ||
      match whole with
      | [] => false
      | _ :: t => strContains t sub

/-! ## Python JSON values and exceptions -/

/-- Values produced by `json.loads` (plus `None` for absent dict lookups).
Floats and booleans never reach the modelled code paths and are omitted. -/
inductive PyVal where
  | vnull : PyVal
  | vint : Int → PyVal
  | vstr : PyStr → PyVal
  | vlist : List PyVal → PyVal
  | vdict : List (PyStr × PyVal) → PyVal

/-- Python `type(v).__name__` on modelled JSON values. -/
def PyVal.typeName : PyVal → PyStr
  | .vnull => "NoneType".data
  | .vint _ => "int".data
  | .vstr _ => "str".data
  | .vlist _ => "list".data
  | .vdict _ => "dict".data

/-- Python exceptions, one constructor per raise site the claims touch.
`apiError` stands for `anthropic.APIError` (transport failures);
`responseParse` is the final raise in `parse_json_response`;
`expectedObject` is the non-object raise there; `missingScore` is the
raise in `JudgmentEngine.judge`; `typeError` stands for the
`TypeError`/`AttributeError` family raised when extraction JSON has an
unexpected shape. -/
inductive PyErr where
  | apiError : PyStr → PyErr
  | responseParse : PyStr → PyErr
  | expectedObject : PyStr → PyErr
  | missingScore : PyStr → PyErr
  | typeError : PyStr → PyErr
  | valueError : PyStr → PyErr
deriving DecidableEq

/-- Which modelled exceptions are instances of Python `ValueError`
(`json.JSONDecodeError` subclasses `ValueError`; `anthropic.APIError` and
`TypeError`/`AttributeError` are not `ValueError`s). -/
def PyErr.isValueError : PyErr → Bool
  | .apiError _ => false
  | .responseParse _ => true
  | .expectedObject _ => true
  | .missingScore _ => true
  | .typeError _ => false
  | .valueError _ => true

/-- Python `d.get(key, default)` on a dict with string keys. -/
def pyDictGet (d : List (PyStr × PyVal)) (key : PyStr) (default : PyVal) : PyVal :=
  match d.find? (fun kv => kv.1 = key) with
  | some kv => kv.2
  | none => default

/-- Python `int(v)` on the values the modelled code can meet: integers pass
through; everything else raises (string coercion is never exercised by the
claims and is modelled as a failure). -/
def pyToInt : PyVal → Except PyErr Int
  | .vint n => .ok n
  | _ => .error (.typeError "int() argument is not an integer".data)

/-- Truthiness of an optional string (Python: `None` and `""` are falsy). -/
def pyTruthy : Option PyStr → Bool
  | none => false
  | some s => s ≠ []

/-! ## llm_client.py: parse_json_response -/

/-- Fence-stripping and whitespace cleanup of `parse_json_response`
(llm_client.py lines 115–125): strip, then if the text starts with three
backticks drop the first line and, when it is a bare fence, the last line,
rejoin and strip again. -/
def cleanResponse (text : PyStr) : PyStr :=
  let cleaned := pyStrip text
  if List.isPrefixOf "```".data cleaned then
    let lines := (splitNl cleaned).drop 1
    let lines :=
      match lines.getLast? with
      | some last => if pyStrip last = "```".data then lines.dropLast else lines
      | none => lines
    pyStrip (joinNl lines)
  else cleaned

/-- Python `cleaned.find "\x7b"`: index of the first brace, or none. -/
def braceStart (s : PyStr) : Option Nat := s.findIdx? (fun c => c = '{')

/-- Python `cleaned.rfind "\x7d" + 1`: one past the last closing brace, or
none when absent. -/
def braceEnd (s : PyStr) : Option Nat :=
  match (s.reverse.findIdx? (fun c => c = '}')) with
  | some j => some (s.length - j)
  | none => none

/-- The error raised at the end of `parse_json_response`: its message embeds
the decode error and the first 500 characters of the raw text. -/
def parseFailure (e : PyStr) (text : PyStr) : PyErr :=
  .responseParse ("Could not parse LLM response as JSON: ".data ++ e ++
    "\nResponse text: ".data ++ text.take 500)

/-- Embedding of `parse_json_response` (llm_client.py lines 97–146),
parametrised by the external `json.loads`. Mirrors the source: clean the
text, try a direct parse (raising `expectedObject` on a non-dict result);
on a decode error try the substring from the first brace to one past the
last brace, returning it only when it is a dict; otherwise raise the
diagnostic error carrying `text[:500]`. -/
def parseJsonResponse (loads : PyStr → Except PyStr PyVal) (text : PyStr) :
    Except PyErr PyVal :=
  let cleaned := cleanResponse text
  match loads cleaned with
  | .ok (.vdict d) => .ok (.vdict d)
  | .ok r =>
      .error (.expectedObject ("Expected JSON object, got ".data ++ r.typeName))
  | .error e =>
    match braceStart cleaned, braceEnd cleaned with
    | some start, some stop =>
      if start < stop then
        match loads ((cleaned.take stop).drop start) with
        | .ok (.vdict d) => .ok (.vdict d)
        | _ => .error (parseFailure e text)
      else .error (parseFailure e text)
    | _, _ => .error (parseFailure e text)

example :
    parseJsonResponse (fun s => if s = "\x7b\x7d".data then .ok (.vdict []) else .error "no".data)
      "```json\n{}\n```".data = .ok (.vdict []) := rfl

/-! ## models.py: judge name validation -/

/-- Character class `[a-z0-9]` of the name regex. -/
def isLowerAlnum (c : Char) : Bool :=
  ('a' ≤ c && c ≤ 'z') || ('0' ≤ c && c ≤ '9')

/-- Character class `[a-z0-9-]` of the name regex. -/
def isNameInner (c : Char) : Bool := isLowerAlnum c || c = '-'

/-- Whether a string fully matches `[a-z0-9][a-z0-9-]*[a-z0-9]|[a-z0-9]`:
non-empty, first and last characters lowercase alphanumeric, interior
characters lowercase alphanumeric or hyphen. -/
def plainNameOk : PyStr → Bool
  | [] => false
  | [c] => isLowerAlnum c
  | c :: rest =>
    isLowerAlnum c && rest.dropLast.all isNameInner &&
      (match rest.getLast? with
       | some d => isLowerAlnum d
       | none => false)

/-- Embedding of `JudgeConfig.validate_name` (models.py lines 44–53):
`re.match(r"^[a-z0-9][a-z0-9-]*[a-z0-9]$|^[a-z0-9]$", v)` is truthy.
Both alternatives are anchored with `^` and `$`; in Python (no MULTILINE)
`$` matches at the end of the string OR just before one trailing newline,
so the regex accepts exactly the strings whose body — after removing at
most one trailing `'\n'` — matches the plain pattern. -/
def validateName (s : PyStr) : Bool :=
  plainNameOk s ||
    (match s.getLast? with
     | some c => c = '\n' && plainNameOk s.dropLast
     | none => false)

/-- Acceptance predicate written from the claim/spec words, for comparison
with `validateName`: a non-empty string of lowercase alphanumerics and
hyphens that neither starts nor ends with a hyphen. -/
def specNameOk (s : PyStr) : Bool :=
  !s.isEmpty && s.all isNameInner &&
    (match s.head?, s.getLast? with
     | some a, some b => a ≠ '-' && b ≠ '-'
     | _, _ => false)

/-! ## models.py: data model -/

/-- Embedding of the `Principle` model: id, text, provenance ids, creation
timestamp (timestamps abstracted to integers). -/
structure Principle where
  id : PyStr
  text : PyStr
  source_example_ids : List PyStr
  created_at : Int
deriving DecidableEq

/-- Embedding of the `Example` model. -/
structure Example where
  id : PyStr
  input_text : PyStr
  expert_feedback : PyStr
  expert_score : Option Int
  judge_output : Option PyStr
  judge_score : Option Int
  created_at : Int
deriving DecidableEq

/-- Embedding of `FeedbackInput` (the align tool payload). -/
structure FeedbackInput where
  input_text : PyStr
  expert_feedback : PyStr
  expert_score : Option Int
  judge_output : Option PyStr
  judge_score : Option Int
deriving DecidableEq

/-- Embedding of `JudgmentResult`. The `reasoning` field keeps the raw JSON
value the code read out of the response. -/
structure JudgmentResult where
  score : Int
  reasoning : PyVal
  judge_name : PyStr
  principles_used : Nat
  examples_retrieved : Nat

/-- Embedding of `AlignmentResult`. -/
structure AlignmentResult where
  judge_name : PyStr
  example_id : PyStr
  principles_extracted : List PyStr
  principles_deduplicated : Nat
  total_principles : Nat
  total_examples : Nat
deriving DecidableEq

/-- Embedding of `MemoryStats`. -/
structure MemoryStats where
  judge_name : PyStr
  total_principles : Nat
  total_examples : Nat
  oldest_principle : Option Int
  newest_principle : Option Int
  oldest_example : Option Int
  newest_example : Option Int
deriving DecidableEq

/-! ## memory_store.py: collections and records -/

/-- One entry of the semantic (principles) ChromaDB collection: id, document
text and the metadata fields `add_principle` writes. -/
structure SemRecord where
  id : PyStr
  document : PyStr
  source_ids_meta : PyStr
  created_at : Int
deriving DecidableEq

/-- One entry of the episodic (examples) ChromaDB collection. -/
structure EpiRecord where
  id : PyStr
  document : PyStr
  input_text : PyStr
  expert_feedback : PyStr
  expert_score : Option Int
  judge_output : Option PyStr
  judge_score : Option Int
  created_at : Int
deriving DecidableEq

/-- The two collections of one judge's memory store. -/
structure StoreState where
  semantic : List SemRecord
  episodic : List EpiRecord
deriving DecidableEq

/-- ChromaDB `collection.upsert` with a single id: replace the record with
that id in place if present, otherwise append it. -/
def upsertSem (r : SemRecord) (l : List SemRecord) : List SemRecord :=
  if l.any (fun x => x.id = r.id) then
    l.map (fun x => if x.id = r.id then r else x)
  else l ++ [r]

/-- ChromaDB `collection.upsert` for the episodic collection. -/
def upsertEpi (r : EpiRecord) (l : List EpiRecord) : List EpiRecord :=
  if l.any (fun x => x.id = r.id) then
    l.map (fun x => if x.id = r.id then r else x)
  else l ++ [r]

/-- Metadata encoding `",".join(principle.source_example_ids)`. -/
def joinComma (ids : List PyStr) : PyStr := List.intercalate [','] ids

/-- Record written by `MemoryStore.add_principle` (memory_store.py 51–65). -/
def principleToRecord (p : Principle) : SemRecord :=
  ⟨p.id, p.text, joinComma p.source_example_ids, p.created_at⟩

/-- Principle reconstruction used by `get_all_principles` and
`find_similar_principles`: split the csv metadata and drop empty ids. -/
def recordToPrinciple (r : SemRecord) : Principle :=
  ⟨r.id, r.document, (splitChar ',' r.source_ids_meta).filter (fun s => s ≠ []),
    r.created_at⟩

/-- Embedding of `MemoryStore.add_principle`. -/
def addPrinciple (p : Principle) (st : StoreState) : StoreState :=
  { st with semantic := upsertSem (principleToRecord p) st.semantic }

/-- Embedding of `MemoryStore.get_all_principles` (memory_store.py 67–85). -/
def getAllPrinciples (sem : List SemRecord) : List Principle :=
  sem.map recordToPrinciple

/-- Record written by `MemoryStore.add_example` (memory_store.py 175–199):
the embedded document is `input_text`, a line break, then `expert_feedback`. -/
def exampleToRecord (e : Example) : EpiRecord :=
  ⟨e.id, e.input_text ++ '\n' :: e.expert_feedback, e.input_text,
    e.expert_feedback, e.expert_score, e.judge_output, e.judge_score,
    e.created_at⟩

/-- Embedding of `MemoryStore.add_example`. -/
def addExample (e : Example) (st : StoreState) : StoreState :=
  { st with episodic := upsertEpi (exampleToRecord e) st.episodic }

/-- Example reconstruction used by `retrieve_examples`/`get_all_examples`. -/
def recordToExample (r : EpiRecord) : Example :=
  ⟨r.id, r.input_text, r.expert_feedback, r.expert_score, r.judge_output,
    r.judge_score, r.created_at⟩

/-- The filtering loop of `find_similar_principles` (memory_store.py
109–126): for each returned neighbour compute `similarity = 1 - distance`
and keep it iff `similarity >= threshold`, preserving query order. -/
def simFilterLoop (threshold : ℚ) : List (SemRecord × ℚ) → List (Principle × ℚ)
  | [] => []
  | (r, distance) :: rest =>
    let similarity := 1 - distance
    if similarity ≥ threshold then
      (recordToPrinciple r, similarity) :: simFilterLoop threshold rest
    else simFilterLoop threshold rest

/-- Embedding of `MemoryStore.find_similar_principles` (memory_store.py
87–128). `semQuery` is the external ChromaDB nearest-neighbour oracle,
called with the query text and `n_results = min(count, 5)`; it returns
(record, cosine distance) pairs nearest first. -/
def findSimilarPrinciples (semQuery : PyStr → Nat → List (SemRecord × ℚ))
    (sem : List SemRecord) (text : PyStr) (threshold : ℚ) :
    List (Principle × ℚ) :=
  let count := sem.length
  if count = 0 then []
  else simFilterLoop threshold (semQuery text (min count 5))

/-- Embedding of `MemoryStore.retrieve_examples` (memory_store.py 201–234).
`k = k or self._config.retrieval_k` maps both `None` and `0` to the
configured default, Python truthiness included. `epiQuery` is the external
ChromaDB oracle called with `n_results = min(count, k)`. -/
def retrieveExamples (epiQuery : PyStr → Int → List EpiRecord)
    (retrieval_k : Int) (epi : List EpiRecord) (query : PyStr)
    (k : Option Int) : List Example :=
  let k := match k with
    | none => retrieval_k
    | some n => if n = 0 then retrieval_k else n
  let count : Int := epi.length
  if count = 0 then []
  else (epiQuery query (min count k)).map recordToExample

/-- Embedding of `MemoryStore.get_all_examples` (memory_store.py 236–266):
a non-query listing; ChromaDB `get(limit=...)` returns at most `limit`
records, modelled as a prefix of the collection. -/
def getAllExamples (epi : List EpiRecord) (limit : Nat) : List Example :=
  let count := epi.length
  if count = 0 then []
  else ((epi.take (min count limit)).map recordToExample)

/-- Python `min(l)`: raises `ValueError` on an empty list. -/
def pyMinList : List Int → Except PyErr Int
  | [] => .error (.valueError "min() arg is an empty sequence".data)
  | h :: t => .ok (t.foldl min h)

/-- Python `max(l)`: raises `ValueError` on an empty list. -/
def pyMaxList : List Int → Except PyErr Int
  | [] => .error (.valueError "max() arg is an empty sequence".data)
  | h :: t => .ok (t.foldl max h)

/-- The guarded Python expression `min(dates) if dates else None`. -/
def pyMinOpt (l : List Int) : Except PyErr (Option Int) :=
  if l = [] then pure none else (pyMinList l).map some

/-- The guarded Python expression `max(dates) if dates else None`. -/
def pyMaxOpt (l : List Int) : Except PyErr (Option Int) :=
  if l = [] then pure none else (pyMaxList l).map some

/-- Embedding of `MemoryStore.get_stats` (memory_store.py 285–301): load all
principles, load examples with `limit=10000`, and take guarded min/max of
the creation timestamps (`min(dates) if dates else None`). -/
def getStats (judge_name : PyStr) (st : StoreState) : Except PyErr MemoryStats := do
  let principles := getAllPrinciples st.semantic
  let examples := getAllExamples st.episodic 10000
  let p_dates := principles.map (fun p => p.created_at)
  let e_dates := examples.map (fun e => e.created_at)
  let oldest_p ← pyMinOpt p_dates
  let newest_p ← pyMaxOpt p_dates
  let oldest_e ← pyMinOpt e_dates
  let newest_e ← pyMaxOpt e_dates
  return ⟨judge_name, principles.length, examples.length,
    oldest_p, newest_p, oldest_e, newest_e⟩

/-! ## prompts.py -/

/-- The `PRINCIPLE_EXTRACTION_SYSTEM` constant (prompts.py 5–22). -/
def PRINCIPLE_EXTRACTION_SYSTEM : PyStr :=
  ("You are an expert at analyzing evaluation feedback and extracting generalizable principles.\n\nYour task: Given expert feedback on a specific evaluation, extract GENERAL principles that could apply to future evaluations of the same type.\n\nRules:\n- Extract only GENERALIZABLE principles, not case-specific observations\n- Each principle should be a clear, actionable guideline\n- Avoid redundancy with existing principles (provided below)\n- If the feedback doesn\x27t contain any new generalizable insights, return an empty list\n- Output valid JSON only\n\nOutput format:\n\x7b\n  \"principles\": [\n    \x7b\"text\": \"The principle text here\"\x7d\n  ],\n  \"reasoning\": \"Brief explanation of why these principles were extracted\"\n\x7d").data

/-- Embedding of `format_principle_extraction_user` (prompts.py 25–80):
build the parts list in source order and join with newlines. -/
def formatPrincipleExtractionUser (criterion : PyStr) (existing : List PyStr)
    (input_text expert_feedback : PyStr) (expert_score : Option Int)
    (judge_output : Option PyStr) (judge_score : Option Int) : PyStr :=
  let parts := ["## Evaluation Criterion\n".data ++ criterion ++ "\n".data]
  let parts := parts ++
    [if existing.isEmpty then "## Existing Principles\nNone yet.\n".data
     else "## Existing Principles (avoid redundancy)\n".data ++
       joinNl (existing.map (fun p => "- ".data ++ p)) ++ "\n".data]
  let parts := parts ++
    ["## Input Being Evaluated\n".data ++ input_text ++ "\n".data,
     "## Expert Feedback\n".data ++ expert_feedback ++ "\n".data]
  let parts := parts ++
    (match expert_score with
     | some s => ["## Expert Score\n".data ++ intToStr s ++ "\n".data]
     | none => [])
  let parts := parts ++
    (match judge_output with
     | some out =>
       (["## Judge\x27s Original Output\n".data ++ out ++ "\n".data] ++
        (match judge_score with
         | some js => ["## Judge\x27s Original Score\n".data ++ intToStr js ++ "\n".data]
         | none => []) ++
        (match expert_score, judge_score with
         | some es, some js =>
           if es ≠ js then
             ["\nNote: The expert scored this ".data ++ intToStr es ++
              " but the judge scored it ".data ++ intToStr js ++
              ". Pay special attention to what the expert\x27s feedback reveals about this disagreement.".data]
           else []
         | _, _ => []))
     | none => [])
  let parts := parts ++
    ["\nExtract generalizable evaluation principles from this feedback. Return JSON with the format specified in your instructions.".data]
  joinNl parts

/-- Example dict entry handed to `format_judgment_system` (keys `input`,
`feedback`, `score`; `none` models an absent key). -/
structure ExDict where
  input : Option PyStr
  feedback : Option PyStr
  score : Option PyStr
deriving DecidableEq

/-- The `principles_section` computed in `format_judgment_system`
(prompts.py 134–138): empty when there are no principles, otherwise the
header plus the numbered principle list. -/
def principlesSection (principles : List PyStr) : PyStr :=
  if principles.isEmpty then []
  else "## Evaluation Principles\nApply these principles in your evaluation:\n".data ++
    joinNl (principles.enum.map (fun ip =>
      "  ".data ++ natToStr (ip.1 + 1) ++ ". ".data ++ ip.2))

/-- One rendered example of the examples section (prompts.py 142–148):
feedback and score lines appear only when truthy. -/
def examplePart (i : Nat) (ex : ExDict) : PyStr :=
  let t := "  ### Example ".data ++ natToStr i ++ "\n  **Input:** ".data ++
    (match ex.input with
     | some s => s
     | none => "N/A".data) ++ "\n".data
  let t := t ++
    (match ex.feedback with
     | some f => if f = [] then [] else "  **Expert Feedback:** ".data ++ f ++ "\n".data
     | none => [])
  t ++
    (match ex.score with
     | some sc => if sc = [] then [] else "  **Expert Score:** ".data ++ sc ++ "\n".data
     | none => [])

/-- The `examples_section` computed in `format_judgment_system`
(prompts.py 140–151): empty when there are no examples, otherwise the
header plus each rendered example joined by newlines (1-based numbering). -/
def examplesSection (examples : List ExDict) : PyStr :=
  if examples.isEmpty then []
  else "## Reference Examples\nUse these as calibration:\n".data ++
    joinNl (examples.enum.map (fun ie => examplePart (ie.1 + 1) ie.2))

/-- Embedding of `format_judgment_system` (prompts.py 113–160): the
`JUDGMENT_SYSTEM_TEMPLATE` with all placeholders substituted. -/
def formatJudgmentSystem (criterion instructions : PyStr) (minS maxS : Int)
    (principles : List PyStr) (examples : List ExDict) : PyStr :=
  "You are an expert evaluator. Your task is to evaluate the given input based on a specific criterion.\n\n## Criterion\n".data ++
  criterion ++
  "\n\n## Evaluation Instructions\n".data ++ instructions ++
  "\n\n## Score Range\n".data ++ intToStr minS ++ " (lowest) to ".data ++
  intToStr maxS ++ " (highest)\n\n".data ++
  principlesSection principles ++ "\n".data ++ examplesSection examples ++
  "\n\n## Output Format\nRespond with valid JSON only:\n\x7b\n  \"score\": <integer between ".data ++
  intToStr minS ++ " and ".data ++ intToStr maxS ++
  ">,\n  \"reasoning\": \"<detailed explanation of your score>\"\n\x7d\n\nImportant:\n- Your score MUST be an integer between ".data ++
  intToStr minS ++ " and ".data ++ intToStr maxS ++
  "\n- Your reasoning should reference specific aspects of the input\n- Consider the principles and examples above when making your judgment\n- Be consistent with the evaluation patterns shown in the examples".data

/-- Embedding of `format_judgment_user` (prompts.py 172–186); the context
section appears only when `context` is truthy. -/
def formatJudgmentUser (input_text : PyStr) (context : Option PyStr) : PyStr :=
  let context_section :=
    match context with
    | some c => if c = [] then [] else "## Additional Context\n".data ++ c
    | none => []
  "## Input to Evaluate\n\n".data ++ input_text ++ "\n\n".data ++
    context_section ++
    "\n\nEvaluate this input and respond with JSON containing your score and reasoning.".data

/-- The `DEDUPLICATION_SYSTEM` constant (prompts.py 191–195). -/
def DEDUPLICATION_SYSTEM : PyStr :=
  ("You are a deduplication specialist. Your task is to determine if a new principle is semantically equivalent to any existing principles.\n\nTwo principles are duplicates if they convey the same evaluation guideline, even if worded differently.\n\nRespond with ONLY one word: \"duplicate\" or \"unique\".").data

/-- Embedding of `format_deduplication_user` (prompts.py 198–217). -/
def formatDeduplicationUser (new_principle : PyStr) (existing : List PyStr) : PyStr :=
  "## New Principle\n".data ++ new_principle ++
  "\n\n## Existing Principles\n".data ++
  joinNl (existing.map (fun p => "- ".data ++ p)) ++
  "\n\nIs the new principle a duplicate of any existing principle? Answer \x27duplicate\x27 or \x27unique\x27.".data

/-! ## llm_client.py: call_json -/

/-- Embedding of `LLMClient.call_json` (llm_client.py 60–94): the raw text
transport `llmText` (model, system, user ↦ text or `anthropic.APIError`)
composed with `parse_json_response`. -/
def callJson (loads : PyStr → Except PyStr PyVal)
    (llmText : PyStr → PyStr → PyStr → Except PyErr PyStr)
    (model system user : PyStr) : Except PyErr PyVal :=
  match llmText model system user with
  | .error e => .error e
  | .ok t => parseJsonResponse loads t

/-! ## judgment.py: JudgmentEngine.judge -/

/-- The fields of `JudgeConfig` that `judge` reads (name, criterion,
instructions, score bounds). -/
structure JudgeCfg where
  name : PyStr
  criterion : PyStr
  instructions : PyStr
  min_score : Int
  max_score : Int
deriving DecidableEq

/-- Embedding of `JudgmentEngine.judge` (judgment.py 37–115): load all
principles, retrieve examples with the default k, build the prompts, call
the JSON LLM variant, then validate: a `None`/absent score raises the
missing-score `ValueError`; an out-of-range integer score is clamped to
`max(min_score, min(max_score, score))`; `reasoning` defaults to the empty
string. -/
def judgeRun (loads : PyStr → Except PyStr PyVal)
    (llmText : PyStr → PyStr → PyStr → Except PyErr PyStr)
    (epiQuery : PyStr → Int → List EpiRecord)
    (retrieval_k : Int) (judgment_model : PyStr)
    (jc : JudgeCfg) (st : StoreState)
    (input_text : PyStr) (context : Option PyStr) :
    Except PyErr JudgmentResult :=
  let principles := getAllPrinciples st.semantic
  let principle_texts := principles.map (fun p => p.text)
  let examples := retrieveExamples epiQuery retrieval_k st.episodic input_text none
  let example_dicts := examples.map (fun ex =>
    ExDict.mk (some ex.input_text) (some ex.expert_feedback)
      (ex.expert_score.map intToStr))
  let system_prompt := formatJudgmentSystem jc.criterion jc.instructions
    jc.min_score jc.max_score principle_texts example_dicts
  let user_prompt := formatJudgmentUser input_text context
  match callJson loads llmText judgment_model system_prompt user_prompt with
  | .error e => .error e
  | .ok response =>
    match response with
    | .vdict d =>
      let reasoning := pyDictGet d "reasoning".data (.vstr [])
      match pyDictGet d "score".data .vnull with
      | .vnull => .error (.missingScore "LLM response missing \x27score\x27 field".data)
      | raw_score =>
        match pyToInt raw_score with
        | .error e => .error e
        | .ok score =>
          let score :=
            if score < jc.min_score || score > jc.max_score then
              max jc.min_score (min jc.max_score score)
            else score
          .ok ⟨score, reasoning, jc.name, principle_texts.length,
            example_dicts.length⟩
    | r =>
      -- Unreachable: `parse_json_response` only returns dicts (see
      -- theorem parse_on_success_returns_dict); Python would fail on
      -- `response.get` here.
      .error (.typeError ("object has no attribute get: ".data ++ r.typeName))

/-! ## alignment.py: AlignmentEngine -/

/-- Result of `AlignmentEngine._is_duplicate` together with whether the
stage-2 LLM call was made at all. -/
structure DupCheck where
  is_dup : Bool
  llm_called : Bool
deriving DecidableEq

/-- Embedding of `AlignmentEngine._is_duplicate` (alignment.py 150–194):
empty existing list short-circuits to unique with no LLM call; stage 1
filters index neighbours by the similarity threshold; stage 2 asks the LLM
and classifies duplicate exactly when the stripped, lowered response equals
"duplicate", any exception being swallowed as unique. -/
def isDuplicate (llmText : PyStr → PyStr → PyStr → Except PyErr PyStr)
    (extraction_model : PyStr)
    (semQuery : PyStr → Nat → List (SemRecord × ℚ))
    (similarity_threshold : ℚ) (sem : List SemRecord)
    (principle : Principle) (existing_texts : List PyStr) : DupCheck :=
  if existing_texts.isEmpty then ⟨false, false⟩
  else
    let similar := findSimilarPrinciples semQuery sem principle.text similarity_threshold
    if similar.isEmpty then ⟨false, false⟩
    else
      let similar_texts := similar.map (fun ps => ps.1.text)
      let user_prompt := formatDeduplicationUser principle.text similar_texts
      match llmText extraction_model DEDUPLICATION_SYSTEM user_prompt with
      | .ok response => ⟨pyLower (pyStrip response) = "duplicate".data, true⟩
      | .error _ => ⟨false, true⟩

/-- The candidate-construction loop of `_extract_principles` (alignment.py
138–148): for each raw entry take `raw.get("text", "")`, strip it, and keep
the non-empty ones as new `Principle`s citing the stored example. `idGen`
supplies the fresh uuid for the i-th raw entry; non-dict entries and
non-string text values raise (Python `AttributeError`). -/
def extractLoop (example_id : PyStr) (idGen : Nat → PyStr) (now : Int) :
    Nat → List PyVal → Except PyErr (List Principle)
  | _, [] => .ok []
  | i, raw :: rest =>
    match raw with
    | .vdict rd =>
      match pyDictGet rd "text".data (.vstr []) with
      | .vstr s =>
        let text := pyStrip s
        if text = [] then extractLoop example_id idGen now (i + 1) rest
        else
          match extractLoop example_id idGen now (i + 1) rest with
          | .error e => .error e
          | .ok tail => .ok (⟨idGen i, text, [example_id], now⟩ :: tail)
      | other => .error (.typeError ("strip on non-string: ".data ++ other.typeName))
    | other => .error (.typeError ("get on non-dict: ".data ++ other.typeName))

/-- Embedding of `AlignmentEngine._extract_principles` (alignment.py
100–148): call the JSON LLM variant; a `ValueError` (any parse failure) is
swallowed into zero candidates, every other exception propagates; then
build candidates from `response.get("principles", [])`. -/
def extractPrinciples (loads : PyStr → Except PyStr PyVal)
    (llmText : PyStr → PyStr → PyStr → Except PyErr PyStr)
    (extraction_model : PyStr) (criterion : PyStr)
    (existing_principles : List PyStr) (fb : FeedbackInput)
    (example_id : PyStr) (idGen : Nat → PyStr) (now : Int) :
    Except PyErr (List Principle) :=
  let user_prompt := formatPrincipleExtractionUser criterion
    existing_principles fb.input_text fb.expert_feedback fb.expert_score
    fb.judge_output fb.judge_score
  match callJson loads llmText extraction_model PRINCIPLE_EXTRACTION_SYSTEM user_prompt with
  | .error e => if e.isValueError then .ok [] else .error e
  | .ok response =>
    match response with
    | .vdict d =>
      match pyDictGet d "principles".data (.vlist []) with
      | .vlist raws => extractLoop example_id idGen now 0 raws
      | other => .error (.typeError ("iteration over non-list: ".data ++ other.typeName))
    | r => .error (.typeError ("object has no attribute get: ".data ++ r.typeName))

/-- The deduplicate-and-store loop of `align` (alignment.py 73–86):
candidates judged duplicate are counted; unique ones are persisted and
their text appended to the in-memory existing list for later candidates. -/
def dedupLoop (llmText : PyStr → PyStr → PyStr → Except PyErr PyStr)
    (extraction_model : PyStr)
    (semQuery : PyStr → Nat → List (SemRecord × ℚ))
    (similarity_threshold : ℚ) :
    List Principle → StoreState → List PyStr → (List PyStr × Nat × StoreState)
  | [], st, _ => ([], 0, st)
  | p :: rest, st, existing_texts =>
    let chk := isDuplicate llmText extraction_model semQuery
      similarity_threshold st.semantic p existing_texts
    if chk.is_dup then
      let out := dedupLoop llmText extraction_model semQuery
        similarity_threshold rest st existing_texts
      (out.1, out.2.1 + 1, out.2.2)
    else
      let st2 := addPrinciple p st
      let out := dedupLoop llmText extraction_model semQuery
        similarity_threshold rest st2 (existing_texts ++ [p.text])
      (p.text :: out.1, out.2.1, out.2.2)

/-- Embedding of `AlignmentEngine.align` (alignment.py 40–98). The pair
returned carries the final store state alongside the Python result, so the
state is observable even on a raised exception: step 1 persists the Example
unconditionally before extraction/deduplication run. `example_id`/`idGen`
and `now` stand for the external uuid and clock draws. -/
def alignRun (loads : PyStr → Except PyStr PyVal)
    (llmText : PyStr → PyStr → PyStr → Except PyErr PyStr)
    (semQuery : PyStr → Nat → List (SemRecord × ℚ))
    (extraction_model : PyStr) (similarity_threshold : ℚ)
    (judge_name criterion : PyStr) (fb : FeedbackInput)
    (example_id : PyStr) (idGen : Nat → PyStr) (now : Int)
    (st : StoreState) : StoreState × Except PyErr AlignmentResult :=
  let newExample : Example := ⟨example_id, fb.input_text, fb.expert_feedback,
    fb.expert_score, fb.judge_output, fb.judge_score, now⟩
  let st1 := addExample newExample st
  let existing_texts := (getAllPrinciples st1.semantic).map (fun p => p.text)
  match extractPrinciples loads llmText extraction_model criterion
    existing_texts fb example_id idGen now with
  | .error e => (st1, .error e)
  | .ok extracted =>
    let out := dedupLoop llmText extraction_model semQuery
      similarity_threshold extracted st1 existing_texts
    match getStats judge_name out.2.2 with
    | .error e => (out.2.2, .error e)
    | .ok stats =>
      (out.2.2, .ok ⟨stats.judge_name, example_id, out.1, out.2.1,
        stats.total_principles, stats.total_examples⟩)

/-! ## Claim C6: judge name validation -/

/-- C6: JudgeConfig name validation. The claim says a name is accepted iff
it is a non-empty string of lowercase alphanumerics and hyphens with no
leading/trailing hyphen. The code is stricter in spirit but its regex ends
in `$`, which in Python also matches just before one trailing newline, so
the name "x\n" is accepted although it is not in the claimed language —
the code contradicts its own validator message. The named scenario-D
inputs behave as claimed. -/
theorem c6_validate_name_trailing_newline_bug :
    validateName "x\n".data = true ∧ specNameOk "x\n".data = false ∧
    validateName "Safety!".data = false ∧ validateName "x".data = true ∧
    validateName "code-quality".data = true := by decide

/-! ## Claim C5: find_similar_principles -/

/-- The append-filter loop of `find_similar_principles` is the filter of the
query hits by `1 - distance ≥ threshold`, mapped to (principle, similarity)
pairs, in query order. -/
lemma simFilterLoop_eq (t : ℚ) (l : List (SemRecord × ℚ)) :
    simFilterLoop t l =
      (l.filter (fun rd => 1 - rd.2 ≥ t)).map
        (fun rd => (recordToPrinciple rd.1, 1 - rd.2)) := by
  induction l with
  | nil => rfl
  | cons hd tl ih =>
    obtain ⟨r, d⟩ := hd
    by_cases h : 1 - d ≥ t <;> simp [simFilterLoop, List.filter_cons, h, ih]

/-- C5: `find_similar_principles` returns the empty list on an empty
collection; otherwise it asks the index for `min(count, 5) ≤ 5` nearest
neighbours and returns exactly those whose similarity `1 − distance` is at
least the threshold (inclusive), paired with that similarity, in query
order. -/
theorem c5_find_similar_principles
    (semQuery : PyStr → Nat → List (SemRecord × ℚ))
    (sem : List SemRecord) (text : PyStr) (t : ℚ) :
    (sem = [] → findSimilarPrinciples semQuery sem text t = []) ∧
    (sem ≠ [] →
      findSimilarPrinciples semQuery sem text t =
        ((semQuery text (min sem.length 5)).filter (fun rd => 1 - rd.2 ≥ t)).map
          (fun rd => (recordToPrinciple rd.1, 1 - rd.2)) ∧
      min sem.length 5 ≤ 5) := by
  constructor
  · intro h
    subst h
    rfl
  · intro h
    have hlen : sem.length ≠ 0 := by simpa using h
    constructor
    · simp [findSimilarPrinciples, hlen, simFilterLoop_eq]
    · exact min_le_right _ _

/-- Witness for C5 at a concrete boundary input: one stored principle whose
query distance is exactly 1/10 against threshold 9/10 — similarity equals
the threshold and the neighbour qualifies (inclusive boundary). -/
theorem c5_find_similar_principles_witness :
    (1 - 1/10 : ℚ) = 9/10 ∧
    findSimilarPrinciples
      (fun _ _ => [(⟨"p1".data, "t1".data, [], 0⟩, 1/10)])
      [⟨"p1".data, "t1".data, [], 0⟩] "q".data (9/10) =
      [(recordToPrinciple ⟨"p1".data, "t1".data, [], 0⟩, 1 - 1/10)] := by
  refine ⟨by norm_num, ?_⟩
  have h := (c5_find_similar_principles
    (fun _ _ => [(⟨"p1".data, "t1".data, [], 0⟩, 1/10)])
    [⟨"p1".data, "t1".data, [], 0⟩] "q".data (9/10)).2 (by simp)
  rw [h.1]
  norm_num [List.filter_cons]

/-! ## Claim C10: retrieve_examples with k = 0 -/

/-- C10: an explicit `k = 0` is falsy in `k or self._config.retrieval_k`,
so `retrieve_examples` treats it exactly like an omitted k and uses the
configured default; in particular, on a non-empty collection whose index
returns the contracted `min(count, k)` records, the result is non-empty
rather than the empty list a literal `k = 0` would suggest. -/
theorem c10_retrieve_examples_k_zero
    (epiQuery : PyStr → Int → List EpiRecord) (retrieval_k : Int)
    (epi : List EpiRecord) (query : PyStr) :
    (retrieveExamples epiQuery retrieval_k epi query (some 0) =
      retrieveExamples epiQuery retrieval_k epi query none) ∧
    (epi ≠ [] → 1 ≤ retrieval_k →
      (epiQuery query (min (epi.length : Int) retrieval_k)).length =
        (min (epi.length : Int) retrieval_k).toNat →
      retrieveExamples epiQuery retrieval_k epi query (some 0) ≠ []) := by
  constructor
  · rfl
  · intro hne hk hq
    have hlen : epi.length ≠ 0 := by simpa using hne
    have hlen1 : 1 ≤ (epi.length : Int) := by omega
    have hcount : ¬ ((epi.length : Int) = 0) := by omega
    have hre : retrieveExamples epiQuery retrieval_k epi query (some 0) =
        (epiQuery query (min (epi.length : Int) retrieval_k)).map recordToExample := by
      simp [retrieveExamples, hcount]
    rw [hre]
    intro hmap
    have hl := congrArg List.length hmap
    rw [List.length_map, hq] at hl
    simp only [List.length_nil, Int.toNat_eq_zero] at hl
    have hmin : (1 : Int) ≤ min (epi.length : Int) retrieval_k := le_min hlen1 hk
    linarith

/-- Witness for C10: a one-example store with default k = 5; a k of 0 still
retrieves the example. -/
theorem c10_retrieve_examples_k_zero_witness :
    retrieveExamples
      (fun _ n => if n ≥ 1 then [⟨"e1".data, "d".data, "i".data, "f".data, none, none, none, 0⟩] else [])
      5 [⟨"e1".data, "d".data, "i".data, "f".data, none, none, none, 0⟩]
      "q".data (some 0) ≠ [] := by
  refine (c10_retrieve_examples_k_zero
    (fun _ n => if n ≥ 1 then [⟨"e1".data, "d".data, "i".data, "f".data, none, none, none, 0⟩] else [])
    5 [⟨"e1".data, "d".data, "i".data, "f".data, none, none, none, 0⟩]
    "q".data).2 (by simp) (by decide) (by decide)

/-! ## Claim C9: get_stats -/

/-- Auxiliary: the value Python `min(l)` computes on a non-empty list. -/
def optMinVal : List Int → Option Int
  | [] => none
  | h :: t => some (t.foldl min h)

/-- Auxiliary: the value Python `max(l)` computes on a non-empty list. -/
def optMaxVal : List Int → Option Int
  | [] => none
  | h :: t => some (t.foldl max h)

lemma exBind_ok {α β : Type} (a : α) (f : α → Except PyErr β) :
    ((Except.ok a : Except PyErr α) >>= f) = f a := rfl

lemma pyMinOpt_ok (l : List Int) : pyMinOpt l = .ok (optMinVal l) := by
  cases l <;> simp [pyMinOpt, pyMinList, optMinVal, pure, Except.pure, Except.map]

lemma pyMaxOpt_ok (l : List Int) : pyMaxOpt l = .ok (optMaxVal l) := by
  cases l <;> simp [pyMaxOpt, pyMaxList, optMaxVal, pure, Except.pure, Except.map]

lemma foldl_min_le (t : List Int) : ∀ h : Int, t.foldl min h ≤ h ∧ ∀ y ∈ t, t.foldl min h ≤ y := by
  induction t with
  | nil => intro h; simp
  | cons a t ih =>
    intro h
    have := ih (min h a)
    refine ⟨le_trans this.1 (min_le_left _ _), ?_⟩
    intro y hy
    rcases List.mem_cons.mp hy with rfl | hy
    · exact le_trans this.1 (min_le_right _ _)
    · exact this.2 y hy

lemma foldl_min_mem (t : List Int) : ∀ h : Int, t.foldl min h ∈ h :: t := by
  induction t with
  | nil => intro h; simp
  | cons a t ih =>
    intro h
    have hmem := ih (min h a)
    rcases List.mem_cons.mp hmem with heq | hmem
    · rw [List.foldl_cons, heq]
      rcases min_cases h a with ⟨he, _⟩ | ⟨he, _⟩ <;> rw [he] <;> simp
    · exact List.mem_cons_of_mem _ (List.mem_cons_of_mem _ hmem)

lemma foldl_max_ge (t : List Int) : ∀ h : Int, h ≤ t.foldl max h ∧ ∀ y ∈ t, y ≤ t.foldl max h := by
  induction t with
  | nil => intro h; simp
  | cons a t ih =>
    intro h
    have := ih (max h a)
    refine ⟨le_trans (le_max_left _ _) this.1, ?_⟩
    intro y hy
    rcases List.mem_cons.mp hy with rfl | hy
    · exact le_trans (le_max_right _ _) this.1
    · exact this.2 y hy

lemma foldl_max_mem (t : List Int) : ∀ h : Int, t.foldl max h ∈ h :: t := by
  induction t with
  | nil => intro h; simp
  | cons a t ih =>
    intro h
    have hmem := ih (max h a)
    rcases List.mem_cons.mp hmem with heq | hmem
    · rw [List.foldl_cons, heq]
      rcases max_cases h a with ⟨he, _⟩ | ⟨he, _⟩ <;> rw [he] <;> simp
    · exact List.mem_cons_of_mem _ (List.mem_cons_of_mem _ hmem)

lemma optMinVal_none_iff (l : List Int) : optMinVal l = none ↔ l = [] := by
  cases l <;> simp [optMinVal]

lemma optMaxVal_none_iff (l : List Int) : optMaxVal l = none ↔ l = [] := by
  cases l <;> simp [optMaxVal]

lemma optMinVal_spec (l : List Int) (x : Int) (h : optMinVal l = some x) :
    x ∈ l ∧ ∀ y ∈ l, x ≤ y := by
  cases l with
  | nil => simp [optMinVal] at h
  | cons a t =>
    simp only [optMinVal, Option.some.injEq] at h
    subst h
    refine ⟨foldl_min_mem t a, ?_⟩
    intro y hy
    rcases List.mem_cons.mp hy with rfl | hy
    · exact (foldl_min_le t y).1
    · exact (foldl_min_le t a).2 y hy

lemma optMaxVal_spec (l : List Int) (x : Int) (h : optMaxVal l = some x) :
    x ∈ l ∧ ∀ y ∈ l, y ≤ x := by
  cases l with
  | nil => simp [optMaxVal] at h
  | cons a t =>
    simp only [optMaxVal, Option.some.injEq] at h
    subst h
    refine ⟨foldl_max_mem t a, ?_⟩
    intro y hy
    rcases List.mem_cons.mp hy with rfl | hy
    · exact (foldl_max_ge t y).1
    · exact (foldl_max_ge t a).2 y hy

/-- Evaluation of `get_stats`: it always succeeds, with the principle count
exact, the example count capped by the 10000-record listing limit, and the
guarded min/max of the listed timestamps. -/
lemma getStats_eval (judge_name : PyStr) (st : StoreState) :
    getStats judge_name st = .ok
      ⟨judge_name, st.semantic.length, min st.episodic.length 10000,
        optMinVal (st.semantic.map (fun r => r.created_at)),
        optMaxVal (st.semantic.map (fun r => r.created_at)),
        optMinVal ((st.episodic.take (min st.episodic.length 10000)).map (fun r => r.created_at)),
        optMaxVal ((st.episodic.take (min st.episodic.length 10000)).map (fun r => r.created_at))⟩ := by
  obtain ⟨sem, epi⟩ := st
  have hp : (getAllPrinciples sem).map (fun p => p.created_at) =
      sem.map (fun r => r.created_at) := by
    simp [getAllPrinciples, List.map_map]
    intro a _
    rfl
  have hplen : (getAllPrinciples sem).length = sem.length := by
    simp [getAllPrinciples]
  by_cases he : epi = []
  · subst he
    simp [getStats, getAllExamples, hp, hplen, pyMinOpt_ok, pyMaxOpt_ok,
      exBind_ok, optMinVal, optMaxVal]
  · have hlen : epi.length ≠ 0 := by simpa using he
    have hge : getAllExamples epi 10000 =
        (epi.take (min epi.length 10000)).map recordToExample := by
      simp [getAllExamples, hlen]
    have hed : (getAllExamples epi 10000).map (fun e => e.created_at) =
        (epi.take (min epi.length 10000)).map (fun r => r.created_at) := by
      rw [hge, List.map_map]
      simp only [List.map_inj_left]
      intro a _
      rfl
    have helen : (getAllExamples epi 10000).length = min epi.length 10000 := by
      rw [hge]
      simp [List.length_take]
    simp [getStats, hp, hplen, hed, helen, pyMinOpt_ok, pyMaxOpt_ok, exBind_ok]

/-- C9 (amended): `get_stats` never raises; it reports the exact principle
count, the example count capped at the 10000-record listing limit, null
oldest/newest timestamps exactly for an empty collection, and otherwise the
true minimum/maximum creation timestamp of the listed records. -/
theorem c9_get_stats_never_raises (judge_name : PyStr) (st : StoreState) :
    ∃ s, getStats judge_name st = .ok s ∧
      s.total_principles = st.semantic.length ∧
      s.total_examples = min st.episodic.length 10000 ∧
      (s.oldest_principle = none ↔ st.semantic = []) ∧
      (s.newest_principle = none ↔ st.semantic = []) ∧
      (s.oldest_example = none ↔ st.episodic = []) ∧
      (s.newest_example = none ↔ st.episodic = []) ∧
      (∀ x, s.oldest_principle = some x →
        x ∈ st.semantic.map (fun r => r.created_at) ∧
        ∀ y ∈ st.semantic.map (fun r => r.created_at), x ≤ y) ∧
      (∀ x, s.newest_principle = some x →
        x ∈ st.semantic.map (fun r => r.created_at) ∧
        ∀ y ∈ st.semantic.map (fun r => r.created_at), y ≤ x) ∧
      (∀ x, s.oldest_example = some x →
        x ∈ (st.episodic.take (min st.episodic.length 10000)).map
          (fun r => r.created_at) ∧
        ∀ y ∈ (st.episodic.take (min st.episodic.length 10000)).map
          (fun r => r.created_at), x ≤ y) ∧
      (∀ x, s.newest_example = some x →
        x ∈ (st.episodic.take (min st.episodic.length 10000)).map
          (fun r => r.created_at) ∧
        ∀ y ∈ (st.episodic.take (min st.episodic.length 10000)).map
          (fun r => r.created_at), y ≤ x) := by
  obtain ⟨sem, epi⟩ := st
  have hnil : (epi.take (min epi.length 10000)).map (fun r => r.created_at) = [] ↔
      epi = [] := by
    constructor
    · intro h
      have hl := congrArg List.length h
      rw [List.length_map, List.length_take] at hl
      simp only [List.length_nil] at hl
      have h0 : epi.length = 0 := by omega
      exact List.length_eq_zero.mp h0
    · intro h
      subst h
      rfl
  refine ⟨_, getStats_eval judge_name ⟨sem, epi⟩, rfl, rfl,
    ?_, ?_, ?_, ?_, ?_, ?_, ?_, ?_⟩
  · simp [optMinVal_none_iff]
  · simp [optMaxVal_none_iff]
  · rw [optMinVal_none_iff]
    exact hnil
  · rw [optMaxVal_none_iff]
    exact hnil
  · exact fun x hx => optMinVal_spec _ x hx
  · exact fun x hx => optMaxVal_spec _ x hx
  · exact fun x hx => optMinVal_spec _ x hx
  · exact fun x hx => optMaxVal_spec _ x hx

/-- Fixed episodic record used by the C9 counterexample. -/
def epiR0 : EpiRecord :=
  ⟨"e".data, "d".data, "i".data, "f".data, none, none, none, 0⟩

/-- C9 counterexample to the claim as stated: a store holding 10001
examples, for which `get_stats` reports `total_examples = 10000` (the
listing limit), not the 10001 records actually held. -/
theorem c9_counterexample_count_capped :
    (∃ s, getStats "j".data ⟨[], List.replicate 10001 epiR0⟩ = .ok s ∧
      s.total_examples = 10000) ∧
    (StoreState.mk [] (List.replicate 10001 epiR0)).episodic.length = 10001 := by
  constructor
  · refine ⟨_, getStats_eval "j".data ⟨[], List.replicate 10001 epiR0⟩, ?_⟩
    show min (List.replicate 10001 epiR0).length 10000 = 10000
    rw [List.length_replicate]
    omega
  · exact List.length_replicate 10001 epiR0

/-! ## Claim C3: two-stage duplicate detection -/

/-- C3: `_is_duplicate` short-circuits to unique with no LLM call when the
existing-principle list is empty or when stage 1 finds no qualifying
neighbour; otherwise it makes the stage-2 LLM call and classifies duplicate
exactly when the trimmed, case-folded response is the string "duplicate";
any stage-2 exception yields unique (fail-open). -/
theorem c3_is_duplicate_protocol
    (llmText : PyStr → PyStr → PyStr → Except PyErr PyStr)
    (extraction_model : PyStr)
    (semQuery : PyStr → Nat → List (SemRecord × ℚ))
    (threshold : ℚ) (sem : List SemRecord) (p : Principle)
    (existing_texts : List PyStr) :
    (existing_texts = [] →
      isDuplicate llmText extraction_model semQuery threshold sem p existing_texts =
        ⟨false, false⟩) ∧
    (existing_texts ≠ [] →
      findSimilarPrinciples semQuery sem p.text threshold = [] →
      isDuplicate llmText extraction_model semQuery threshold sem p existing_texts =
        ⟨false, false⟩) ∧
    (existing_texts ≠ [] →
      findSimilarPrinciples semQuery sem p.text threshold ≠ [] →
      ((isDuplicate llmText extraction_model semQuery threshold sem p existing_texts).llm_called = true ∧
       ((isDuplicate llmText extraction_model semQuery threshold sem p existing_texts).is_dup = true ↔
         ∃ r, llmText extraction_model DEDUPLICATION_SYSTEM
             (formatDeduplicationUser p.text
               ((findSimilarPrinciples semQuery sem p.text threshold).map (fun ps => ps.1.text))) =
             .ok r ∧
           pyLower (pyStrip r) = "duplicate".data) ∧
       (∀ e, llmText extraction_model DEDUPLICATION_SYSTEM
             (formatDeduplicationUser p.text
               ((findSimilarPrinciples semQuery sem p.text threshold).map (fun ps => ps.1.text))) =
             .error e →
         (isDuplicate llmText extraction_model semQuery threshold sem p existing_texts).is_dup = false))) := by
  refine ⟨?_, ?_, ?_⟩
  · intro h
    subst h
    rfl
  · intro hne hsim
    have hne2 : existing_texts.isEmpty = false := by
      simpa [List.isEmpty_iff] using hne
    simp [isDuplicate, hne2, hsim]
  · intro hne hsim
    have hne2 : existing_texts.isEmpty = false := by
      simpa [List.isEmpty_iff] using hne
    have hsim2 : (findSimilarPrinciples semQuery sem p.text threshold).isEmpty = false := by
      simpa [List.isEmpty_iff] using hsim
    cases hllm : llmText extraction_model DEDUPLICATION_SYSTEM
        (formatDeduplicationUser p.text
          ((findSimilarPrinciples semQuery sem p.text threshold).map (fun ps => ps.1.text))) with
    | error e =>
      refine ⟨?_, ?_, ?_⟩
      · simp [isDuplicate, hne2, hsim2, hllm]
      · simp [isDuplicate, hne2, hsim2, hllm]
      · intro e2 _
        simp [isDuplicate, hne2, hsim2, hllm]
    | ok r =>
      refine ⟨?_, ?_, ?_⟩
      · simp [isDuplicate, hne2, hsim2, hllm]
      · constructor
        · intro h
          refine ⟨r, rfl, ?_⟩
          simp [isDuplicate, hne2, hsim2, hllm] at h
          exact h
        · rintro ⟨r2, hr2, hdup⟩
          cases hr2
          simp [isDuplicate, hne2, hsim2, hllm, hdup]
      · intro e2 he2
        simp at he2

/-- Witness for C3: one stored principle, a qualifying stage-1 neighbour
(distance 0 against threshold 0), and a stage-2 response " Duplicate "
that trims and lowers to "duplicate" — the candidate is classified
duplicate via the stage-2 call. -/
theorem c3_is_duplicate_protocol_witness :
    (isDuplicate (fun _ _ _ => .ok " Duplicate ".data) "m".data
      (fun _ _ => [(⟨"p1".data, "t1".data, [], 0⟩, 0)]) 0
      [⟨"p1".data, "t1".data, [], 0⟩]
      ⟨"pid".data, "cand".data, [], 0⟩ ["t1".data]).is_dup = true := by
  have h := (c3_is_duplicate_protocol (fun _ _ _ => .ok " Duplicate ".data) "m".data
    (fun _ _ => [(⟨"p1".data, "t1".data, [], 0⟩, 0)]) 0
    [⟨"p1".data, "t1".data, [], 0⟩]
    ⟨"pid".data, "cand".data, [], 0⟩ ["t1".data]).2.2
    (by simp)
    (by norm_num [findSimilarPrinciples, simFilterLoop])
  exact h.2.1.mpr ⟨" Duplicate ".data, rfl, by decide⟩

/-! ## Claim C1: score clamping in judge -/

/-- The conditional clamp of judgment.py lines 102–107 equals the
unconditional clamp `max lo (min hi s)`. -/
lemma pyClamp_eq (lo hi s : Int) :
    (if s < lo || s > hi then max lo (min hi s) else s) = max lo (min hi s) := by
  split_ifs with h
  · rfl
  · simp only [Bool.or_eq_true, decide_eq_true_eq, not_or] at h
    rw [max_def, min_def]
    split_ifs <;> omega

/-- The clamped score lies within the bounds whenever `lo ≤ hi`. -/
lemma clamp_bounds (lo hi s : Int) (h : lo ≤ hi) :
    lo ≤ max lo (min hi s) ∧ max lo (min hi s) ≤ hi := by
  rw [max_def, min_def]
  split_ifs <;> omega

/-- C1: whenever the decoded judgment response carries an integer score s
and the judge's bounds satisfy min_score < max_score (as `ScoreRange`
validation guarantees), `judge` returns exactly
`max(min_score, min(max_score, s))` — out-of-range scores are clamped to
the nearer bound, in-range scores pass through — so the returned score
always lies in `[min_score, max_score]`. -/
theorem c1_judge_score_clamped
    (loads : PyStr → Except PyStr PyVal)
    (llmText : PyStr → PyStr → PyStr → Except PyErr PyStr)
    (epiQuery : PyStr → Int → List EpiRecord)
    (retrieval_k : Int) (judgment_model : PyStr) (jc : JudgeCfg)
    (st : StoreState) (input_text : PyStr) (context : Option PyStr)
    (d : List (PyStr × PyVal)) (s : Int)
    (hllm : ∀ system user, callJson loads llmText judgment_model system user =
      .ok (.vdict d))
    (hscore : pyDictGet d "score".data .vnull = .vint s)
    (hrange : jc.min_score < jc.max_score) :
    ∃ r, judgeRun loads llmText epiQuery retrieval_k judgment_model jc st
        input_text context = .ok r ∧
      r.score = max jc.min_score (min jc.max_score s) ∧
      jc.min_score ≤ r.score ∧ r.score ≤ jc.max_score := by
  have hb := clamp_bounds jc.min_score jc.max_score s (le_of_lt hrange)
  simp only [judgeRun, hllm, hscore, pyToInt]
  refine ⟨_, rfl, ?_, ?_, ?_⟩
  · exact pyClamp_eq _ _ _
  · show jc.min_score ≤
      (if s < jc.min_score || s > jc.max_score then
        max jc.min_score (min jc.max_score s) else s)
    rw [pyClamp_eq]
    exact hb.1
  · show (if s < jc.min_score || s > jc.max_score then
        max jc.min_score (min jc.max_score s) else s) ≤ jc.max_score
    rw [pyClamp_eq]
    exact hb.2

/-- Witness for C1: bounds [1, 5], model reports score 7; the returned
score is max(1, min(5, 7)) = 5 and lies in [1, 5]. -/
theorem c1_judge_score_clamped_witness :
    ∃ r, judgeRun (fun _ => .ok (.vdict [("score".data, .vint 7)]))
        (fun _ _ _ => .ok "x".data) (fun _ _ => []) 5 "m".data
        ⟨"j".data, "c".data, "i".data, 1, 5⟩ ⟨[], []⟩ "inp".data none = .ok r ∧
      r.score = max 1 (min 5 7) ∧ (1 : Int) ≤ r.score ∧ r.score ≤ 5 :=
  c1_judge_score_clamped (fun _ => .ok (.vdict [("score".data, .vint 7)]))
    (fun _ _ _ => .ok "x".data) (fun _ _ => []) 5 "m".data
    ⟨"j".data, "c".data, "i".data, 1, 5⟩ ⟨[], []⟩ "inp".data none
    [("score".data, .vint 7)] 7 (fun _ _ => rfl) rfl (by norm_num)

/-! ## Claim C2: missing score raises, missing reasoning defaults -/

/-- C2: when the decoded judgment response has no usable `score` (the key
absent or null), `judge` raises the missing-score error — a kind distinct
from the response-parse error — and never returns a defaulted score; when
a score is present but `reasoning` is absent, the call succeeds with empty
reasoning text. -/
theorem c2_missing_score_raises
    (loads : PyStr → Except PyStr PyVal)
    (llmText : PyStr → PyStr → PyStr → Except PyErr PyStr)
    (epiQuery : PyStr → Int → List EpiRecord)
    (retrieval_k : Int) (judgment_model : PyStr) (jc : JudgeCfg)
    (st : StoreState) (input_text : PyStr) (context : Option PyStr)
    (d : List (PyStr × PyVal))
    (hllm : ∀ system user, callJson loads llmText judgment_model system user =
      .ok (.vdict d)) :
    (pyDictGet d "score".data .vnull = .vnull →
      judgeRun loads llmText epiQuery retrieval_k judgment_model jc st
          input_text context =
        .error (.missingScore "LLM response missing \x27score\x27 field".data) ∧
      ∀ m, (PyErr.missingScore "LLM response missing \x27score\x27 field".data) ≠
        .responseParse m) ∧
    (∀ s, pyDictGet d "score".data .vnull = .vint s →
      d.find? (fun kv => kv.1 = "reasoning".data) = none →
      ∃ r, judgeRun loads llmText epiQuery retrieval_k judgment_model jc st
          input_text context = .ok r ∧ r.reasoning = .vstr []) := by
  constructor
  · intro hnull
    refine ⟨?_, ?_⟩
    · simp only [judgeRun, hllm, hnull]
    · intro m h
      cases h
  · intro s hscore hreason
    have hget : pyDictGet d "reasoning".data (.vstr []) = .vstr [] := by
      simp [pyDictGet, hreason]
    simp only [judgeRun, hllm, hscore, hget, pyToInt]
    exact ⟨_, rfl, rfl⟩

/-- Witness for C2: a response carrying only a reasoning-free score of 3
succeeds with empty reasoning, and an empty response raises the
missing-score error. -/
theorem c2_missing_score_raises_witness :
    (judgeRun (fun _ => .ok (.vdict [])) (fun _ _ _ => .ok "x".data)
        (fun _ _ => []) 5 "m".data ⟨"j".data, "c".data, "i".data, 1, 5⟩
        ⟨[], []⟩ "inp".data none =
      .error (.missingScore "LLM response missing \x27score\x27 field".data)) ∧
    (∃ r, judgeRun (fun _ => .ok (.vdict [("score".data, .vint 3)]))
        (fun _ _ _ => .ok "x".data) (fun _ _ => []) 5 "m".data
        ⟨"j".data, "c".data, "i".data, 1, 5⟩ ⟨[], []⟩ "inp".data none =
      .ok r ∧ r.reasoning = .vstr []) := by
  constructor
  · exact ((c2_missing_score_raises (fun _ => .ok (.vdict []))
      (fun _ _ _ => .ok "x".data) (fun _ _ => []) 5 "m".data
      ⟨"j".data, "c".data, "i".data, 1, 5⟩ ⟨[], []⟩ "inp".data none []
      (fun _ _ => rfl)).1 rfl).1
  · exact (c2_missing_score_raises (fun _ => .ok (.vdict [("score".data, .vint 3)]))
      (fun _ _ _ => .ok "x".data) (fun _ _ => []) 5 "m".data
      ⟨"j".data, "c".data, "i".data, 1, 5⟩ ⟨[], []⟩ "inp".data none
      [("score".data, .vint 3)] (fun _ _ => rfl)).2 3 rfl rfl

/-! ## Claim C4: align persists the example unconditionally -/

/-- The deduplicate-and-store loop touches only semantic memory: the
episodic collection is unchanged by it. -/
lemma dedupLoop_episodic
    (llmText : PyStr → PyStr → PyStr → Except PyErr PyStr)
    (extraction_model : PyStr)
    (semQuery : PyStr → Nat → List (SemRecord × ℚ)) (threshold : ℚ) :
    ∀ (ps : List Principle) (st : StoreState) (ex : List PyStr),
      (dedupLoop llmText extraction_model semQuery threshold ps st ex).2.2.episodic =
        st.episodic := by
  intro ps
  induction ps with
  | nil => intro st ex; rfl
  | cons p rest ih =>
    intro st ex
    by_cases h : (isDuplicate llmText extraction_model semQuery threshold
        st.semantic p ex).is_dup <;>
      simp [dedupLoop, h, ih, addPrinciple]

/-- C4: the Example built verbatim from the feedback payload is upserted
into episodic memory first, and the final state reflects that upsert no
matter what the extraction and deduplication oracles do; when the
extraction response fails to parse (a Python `ValueError`), extraction is
swallowed into zero candidates, align succeeds, its result names the
stored example, and semantic memory is untouched. -/
theorem c4_align_persists_example
    (loads : PyStr → Except PyStr PyVal)
    (llmText : PyStr → PyStr → PyStr → Except PyErr PyStr)
    (semQuery : PyStr → Nat → List (SemRecord × ℚ))
    (extraction_model : PyStr) (similarity_threshold : ℚ)
    (judge_name criterion : PyStr) (fb : FeedbackInput)
    (example_id : PyStr) (idGen : Nat → PyStr) (now : Int)
    (st : StoreState) :
    ((alignRun loads llmText semQuery extraction_model similarity_threshold
        judge_name criterion fb example_id idGen now st).1.episodic =
      upsertEpi (exampleToRecord ⟨example_id, fb.input_text,
        fb.expert_feedback, fb.expert_score, fb.judge_output, fb.judge_score,
        now⟩) st.episodic) ∧
    (∀ e : PyErr,
      (∀ system user, callJson loads llmText extraction_model system user =
        .error e) →
      e.isValueError = true →
      ∃ res, (alignRun loads llmText semQuery extraction_model
          similarity_threshold judge_name criterion fb example_id idGen now
          st).2 = .ok res ∧
        res.example_id = example_id ∧
        res.principles_extracted = [] ∧
        res.principles_deduplicated = 0 ∧
        (alignRun loads llmText semQuery extraction_model
          similarity_threshold judge_name criterion fb example_id idGen now
          st).1.semantic = st.semantic) := by
  constructor
  · unfold alignRun
    dsimp only
    split
    · rfl
    · split
      · exact dedupLoop_episodic _ _ _ _ _ _ _
      · exact dedupLoop_episodic _ _ _ _ _ _ _
  · intro e hcall hval
    have hex : ∀ ex_texts : List PyStr,
        extractPrinciples loads llmText extraction_model criterion ex_texts fb
          example_id idGen now = .ok [] := by
      intro ex_texts
      simp [extractPrinciples, hcall, hval]
    unfold alignRun
    simp only [hex, dedupLoop, getStats_eval]
    exact ⟨_, rfl, rfl, rfl, rfl, rfl⟩

/-- Witness for C4: a transport returning unparseable text (the external
decoder always fails), on an empty store — align still succeeds, reports
the stored example id, and extracts nothing. -/
theorem c4_align_persists_example_witness :
    ∃ res, (alignRun (fun _ => .error "Expecting value".data)
        (fun _ _ _ => .ok []) (fun _ _ => []) "m".data (9/10)
        "j".data "crit".data ⟨"in".data, "fb".data, none, none, none⟩
        "ex1".data (fun _ => "p".data) 0 ⟨[], []⟩).2 = .ok res ∧
      res.example_id = "ex1".data ∧
      res.principles_extracted = [] ∧
      res.principles_deduplicated = 0 ∧
      (alignRun (fun _ => .error "Expecting value".data)
        (fun _ _ _ => .ok []) (fun _ _ => []) "m".data (9/10)
        "j".data "crit".data ⟨"in".data, "fb".data, none, none, none⟩
        "ex1".data (fun _ => "p".data) 0 ⟨[], []⟩).1.semantic = [] :=
  (c4_align_persists_example (fun _ => .error "Expecting value".data)
    (fun _ _ _ => .ok []) (fun _ _ => []) "m".data (9/10)
    "j".data "crit".data ⟨"in".data, "fb".data, none, none, none⟩
    "ex1".data (fun _ => "p".data) 0 ⟨[], []⟩).2
    (parseFailure "Expecting value".data [])
    (fun _ _ => rfl) rfl

/-! ## Claim C7: prompt sections appear iff non-empty -/

lemma strContains_eq (whole sub : PyStr) :
    strContains whole sub =
      (List.isPrefixOf sub whole ||
        match whole with
        | [] => false
        | _ :: t => strContains t sub) := by
  cases whole <;> rfl

lemma isPrefixOf_self_append (s u : PyStr) :
    List.isPrefixOf s (s ++ u) = true := by
  induction s with
  | nil => simp [List.isPrefixOf]
  | cons a t ih => simp [List.isPrefixOf, ih]

lemma isPrefixOf_append_right (p q u : PyStr)
    (h : List.isPrefixOf p q = true) : List.isPrefixOf p (q ++ u) = true := by
  induction p generalizing q with
  | nil => simp [List.isPrefixOf]
  | cons a p ih =>
    cases q with
    | nil => simp [List.isPrefixOf] at h
    | cons b q =>
      simp only [List.isPrefixOf, List.cons_append, Bool.and_eq_true] at h ⊢
      exact ⟨h.1, ih q h.2⟩

lemma strContains_of_isPrefixOf (whole sub : PyStr)
    (h : List.isPrefixOf sub whole = true) : strContains whole sub = true := by
  rw [strContains_eq, h, Bool.true_or]

lemma strContains_append_right (a b sub : PyStr)
    (h : strContains b sub = true) : strContains (a ++ b) sub = true := by
  induction a with
  | nil => simpa using h
  | cons c t ih =>
    have hstep : strContains ((c :: t) ++ b) sub =
        (List.isPrefixOf sub (c :: (t ++ b)) || strContains (t ++ b) sub) := by
      rw [List.cons_append, strContains_eq]
    rw [hstep, ih, Bool.or_true]

/-- C7 (amended): the judgment system prompt contains the
"## Evaluation Principles" header whenever the principle list is non-empty
and the "## Reference Examples" header whenever the example list is
non-empty, and the section text spliced into the template is empty exactly
when the corresponding list is empty — the function itself never inserts a
bare section header. (The converse containment direction fails when other
fields themselves contain the header text; see the counterexample.) -/
theorem c7_prompt_sections (criterion instructions : PyStr)
    (minS maxS : Int) (principles : List PyStr) (examples : List ExDict) :
    (principles ≠ [] →
      strContains (formatJudgmentSystem criterion instructions minS maxS
        principles examples) "## Evaluation Principles".data = true) ∧
    (examples ≠ [] →
      strContains (formatJudgmentSystem criterion instructions minS maxS
        principles examples) "## Reference Examples".data = true) ∧
    (principlesSection principles = [] ↔ principles = []) ∧
    (examplesSection examples = [] ↔ examples = []) := by
  refine ⟨?_, ?_, ?_, ?_⟩
  · intro hp
    have hp2 : principles.isEmpty = false := by simpa [List.isEmpty_iff] using hp
    unfold formatJudgmentSystem
    simp only [List.append_assoc]
    iterate 9 apply strContains_append_right
    rw [principlesSection, hp2]
    simp only [Bool.false_eq_true, if_false, List.append_assoc]
    apply strContains_of_isPrefixOf
    apply isPrefixOf_append_right
    decide
  · intro he
    have he2 : examples.isEmpty = false := by simpa [List.isEmpty_iff] using he
    unfold formatJudgmentSystem
    simp only [List.append_assoc]
    iterate 11 apply strContains_append_right
    rw [examplesSection, he2]
    simp only [Bool.false_eq_true, if_false, List.append_assoc]
    apply strContains_of_isPrefixOf
    apply isPrefixOf_append_right
    decide
  · cases principles with
    | nil => simp [principlesSection]
    | cons a l =>
      simp only [principlesSection, List.isEmpty_cons, Bool.false_eq_true,
        if_false, List.append_eq_nil]
      constructor
      · rintro ⟨h1, _⟩
        exact absurd h1 (by decide)
      · intro h
        cases h
  · cases examples with
    | nil => simp [examplesSection]
    | cons a l =>
      simp only [examplesSection, List.isEmpty_cons, Bool.false_eq_true,
        if_false, List.append_eq_nil]
      constructor
      · rintro ⟨h1, _⟩
        exact absurd h1 (by decide)
      · intro h
        cases h

/-- Witness for C7: with one principle and one example the prompt contains
both section headers. -/
theorem c7_prompt_sections_witness :
    strContains (formatJudgmentSystem "c".data "i".data 1 5 ["p".data]
      [⟨some "x".data, some "f".data, none⟩]) "## Evaluation Principles".data = true ∧
    strContains (formatJudgmentSystem "c".data "i".data 1 5 ["p".data]
      [⟨some "x".data, some "f".data, none⟩]) "## Reference Examples".data = true :=
  ⟨(c7_prompt_sections "c".data "i".data 1 5 ["p".data]
      [⟨some "x".data, some "f".data, none⟩]).1 (by simp),
   (c7_prompt_sections "c".data "i".data 1 5 ["p".data]
      [⟨some "x".data, some "f".data, none⟩]).2.1 (by simp)⟩

/-- C7 counterexample to the claim as stated: with an empty principle list
but a criterion whose text is itself "## Evaluation Principles", the
produced prompt does contain the header, so "contains the section header
iff the principle list is non-empty" is false for this input. -/
theorem c7_counterexample_header_injection :
    ¬ (strContains (formatJudgmentSystem "## Evaluation Principles".data
        "i".data 1 5 [] []) "## Evaluation Principles".data = true ↔
      ([] : List PyStr) ≠ []) := by
  intro h
  have hcontains : strContains (formatJudgmentSystem
      "## Evaluation Principles".data "i".data 1 5 [] [])
      "## Evaluation Principles".data = true := by
    unfold formatJudgmentSystem
    simp only [List.append_assoc]
    apply strContains_append_right
    apply strContains_of_isPrefixOf
    exact isPrefixOf_self_append _ _
  exact (h.mp hcontains) rfl

/-! ## Claim C8: parse_json_response -/

lemma splitChar_ne_nil (sep : Char) (l : PyStr) : splitChar sep l ≠ [] := by
  cases l with
  | nil => simp [splitChar]
  | cons c rest =>
    simp only [splitChar]
    cases h : splitChar sep rest with
    | nil => simp
    | cons a t =>
      by_cases hc : c = sep <;> simp [hc]

lemma splitChar_no_sep (sep : Char) (l : PyStr) (h : sep ∉ l) :
    splitChar sep l = [l] := by
  induction l with
  | nil => rfl
  | cons c rest ih =>
    have hc : ¬ (c = sep) := fun hx => h (hx ▸ List.mem_cons_self c rest)
    have hrest : sep ∉ rest := fun hx => h (List.mem_cons_of_mem c hx)
    simp only [splitChar, ih hrest]
    simp [hc]

lemma splitChar_append_cons (sep : Char) (xs ys : PyStr) (h : sep ∉ xs) :
    splitChar sep (xs ++ sep :: ys) = xs :: splitChar sep ys := by
  induction xs with
  | nil =>
    simp only [List.nil_append, splitChar]
    cases hy : splitChar sep ys with
    | nil => exact absurd hy (splitChar_ne_nil sep ys)
    | cons a t => simp
  | cons c rest ih =>
    have hc : ¬ (c = sep) := fun hx => h (hx ▸ List.mem_cons_self c rest)
    have hrest : sep ∉ rest := fun hx => h (List.mem_cons_of_mem c hx)
    simp only [List.cons_append, splitChar, List.append_eq]
    rw [ih hrest]
    simp [hc]

lemma splitChar_append_last (sep : Char) (body c : PyStr) (h : sep ∉ c) :
    splitChar sep (body ++ sep :: c) = splitChar sep body ++ [c] := by
  induction body with
  | nil =>
    simp only [List.nil_append]
    rw [show (sep :: c : PyStr) = ([] : PyStr) ++ sep :: c by rfl,
      splitChar_append_cons sep [] c (by simp), splitChar_no_sep sep c h]
    rfl
  | cons b body ih =>
    simp only [List.cons_append, splitChar, List.append_eq]
    rw [ih]
    cases hb : splitChar sep body with
    | nil => exact absurd hb (splitChar_ne_nil sep body)
    | cons a t =>
      simp only [List.cons_append]
      by_cases hc : b = sep <;> simp [hc]

lemma joinNl_splitNl (l : PyStr) : joinNl (splitChar '\n' l) = l := by
  induction l with
  | nil => rfl
  | cons c rest ih =>
    simp only [splitChar]
    cases h : splitChar '\n' rest with
    | nil => exact absurd h (splitChar_ne_nil '\n' rest)
    | cons a t =>
      rw [h] at ih
      by_cases hc : c = '\n'
      · subst hc
        simp only [if_pos rfl]
        cases t with
        | nil => simp [joinNl] at ih ⊢; exact ih
        | cons b u => simp [joinNl] at ih ⊢; exact ih
      · simp only [if_neg hc]
        cases t with
        | nil => simp [joinNl] at ih ⊢; rw [ih]
        | cons b u =>
          simp [joinNl] at ih ⊢
          exact ih

lemma getLast?_append_single {α : Type} : ∀ (l : List α) (a : α),
    (l ++ [a]).getLast? = some a
  | [], _ => rfl
  | [_], _ => rfl
  | _ :: c :: t, a => getLast?_append_single (c :: t) a

lemma dropLast_append_single {α : Type} : ∀ (l : List α) (a : α),
    (l ++ [a]).dropLast = l
  | [], _ => rfl
  | [_], _ => rfl
  | b :: c :: t, a => congrArg (List.cons b) (dropLast_append_single (c :: t) a)

/-- The diagnostic error of `parse_json_response` carries the first 500
characters of the raw response text inside its message. -/
lemma parseFailure_carries_prefix (e text : PyStr) :
    ∃ m, parseFailure e text = .responseParse m ∧
      strContains m (text.take 500) = true := by
  refine ⟨_, rfl, ?_⟩
  simp only [List.append_assoc]
  apply strContains_append_right
  apply strContains_append_right
  apply strContains_append_right
  have h0 := isPrefixOf_self_append (text.take 500) []
  rw [List.append_nil] at h0
  exact strContains_of_isPrefixOf _ _ h0

/-- C8: `parse_json_response` (1) strips a surrounding triple-backtick
fence, with or without a language tag, before parsing; (2) on success
always returns a JSON object, never a non-object value; (3) if direct
parsing of the cleaned text fails, the call either succeeds through the
first-brace/last-brace substring (as a dict) or raises the response-parse
error whose message carries the first 500 characters of the raw text; and
(4) when the brace-substring parse yields a dict it is returned. -/
theorem c8_parse_json_response (loads : PyStr → Except PyStr PyVal) :
    (∀ text tag body, '\n' ∉ tag →
      pyStrip text = ("```".data ++ tag) ++ '\n' :: (body ++ '\n' :: "```".data) →
      cleanResponse text = pyStrip body) ∧
    (∀ text v, parseJsonResponse loads text = .ok v → ∃ d, v = .vdict d) ∧
    (∀ text e, loads (cleanResponse text) = .error e →
      (∃ d, parseJsonResponse loads text = .ok (.vdict d)) ∨
      (∃ m, parseJsonResponse loads text = .error (.responseParse m) ∧
        strContains m (text.take 500) = true)) ∧
    (∀ text e start stop d, loads (cleanResponse text) = .error e →
      braceStart (cleanResponse text) = some start →
      braceEnd (cleanResponse text) = some stop →
      start < stop →
      loads (((cleanResponse text).take stop).drop start) = .ok (.vdict d) →
      parseJsonResponse loads text = .ok (.vdict d)) := by
  refine ⟨?_, ?_, ?_, ?_⟩
  · intro text tag body htag hstrip
    have hpre : List.isPrefixOf "```".data
        (("```".data ++ tag) ++ '\n' :: (body ++ '\n' :: "```".data)) = true := by
      rw [List.append_assoc]
      exact isPrefixOf_append_right _ _ _ (by decide)
    have hno : ('\n' : Char) ∉ ("```".data ++ tag) := by
      intro hmem
      rcases List.mem_append.mp hmem with h1 | h1
      · exact absurd h1 (by decide)
      · exact htag h1
    have hsplit : splitNl (("```".data ++ tag) ++ '\n' :: (body ++ '\n' :: "```".data)) =
        ("```".data ++ tag) :: (splitChar '\n' body ++ ["```".data]) := by
      rw [show splitNl = splitChar '\n' from rfl,
        splitChar_append_cons '\n' _ _ hno,
        splitChar_append_last '\n' body ("```".data) (by decide)]
    unfold cleanResponse
    dsimp only
    rw [hstrip, if_pos hpre]
    rw [hsplit]
    simp only [List.drop_succ_cons, List.drop_zero]
    rw [getLast?_append_single]
    simp only [if_pos (show pyStrip "```".data = "```".data by decide),
      dropLast_append_single]
    rw [joinNl_splitNl]
  · intro text v h
    unfold parseJsonResponse at h
    dsimp only at h
    split at h
    · cases h
      exact ⟨_, rfl⟩
    · cases h
    · split at h
      · split at h
        · split at h
          · cases h
            exact ⟨_, rfl⟩
          · cases h
        · cases h
      · cases h
  · intro text e hl
    have hfail : ∃ m,
        (Except.error (parseFailure e text) : Except PyErr PyVal) =
          .error (.responseParse m) ∧
        strContains m (text.take 500) = true := by
      obtain ⟨m, hm, hc⟩ := parseFailure_carries_prefix e text
      exact ⟨m, by rw [hm], hc⟩
    unfold parseJsonResponse
    dsimp only
    rw [hl]
    dsimp only
    rcases hbs : braceStart (cleanResponse text) with _ | start
    · right
      exact hfail
    · rcases hbe : braceEnd (cleanResponse text) with _ | stop
      · right
        exact hfail
      · dsimp only
        by_cases hlt : start < stop
        · rw [if_pos hlt]
          rcases hin : loads (((cleanResponse text).take stop).drop start) with e2 | v
          · right
            exact hfail
          · cases v with
            | vdict d => left; exact ⟨d, rfl⟩
            | vnull => right; exact hfail
            | vint n => right; exact hfail
            | vstr s2 => right; exact hfail
            | vlist xs => right; exact hfail
        · rw [if_neg hlt]
          right
          exact hfail
  · intro text e start stop d hl hbs hbe hlt hin
    unfold parseJsonResponse
    dsimp only
    rw [hl]
    dsimp only
    rw [hbs, hbe]
    dsimp only
    rw [if_pos hlt, hin]

/-- Witness for C8 at concrete inputs: a fenced response with a language
tag is cleaned down to its body, and an unparseable plain response takes
the diagnostic path carrying the raw-text prefix. -/
theorem c8_parse_json_response_witness :
    (cleanResponse "```json\n\x7b\x7d\n```".data = pyStrip "\x7b\x7d".data) ∧
    ((∃ d, parseJsonResponse (fun _ => .error "Expecting value".data)
        "hello".data = .ok (.vdict d)) ∨
     (∃ m, parseJsonResponse (fun _ => .error "Expecting value".data)
        "hello".data = .error (.responseParse m) ∧
       strContains m ("hello".data.take 500) = true)) :=
  ⟨(c8_parse_json_response (fun _ => .error "Expecting value".data)).1
      "```json\n\x7b\x7d\n```".data "json".data "\x7b\x7d".data
      (by decide) (by decide),
   (c8_parse_json_response (fun _ => .error "Expecting value".data)).2.2.1
      "hello".data "Expecting value".data rfl⟩
